import Mathlib

/-!
# User-account backend: credential and reset-token lifecycle

A shallow embedding of `backend/controllers/userController.js`,
`backend/models/userModel.js` and `backend/middleWare/errorMiddleware.js`.

* A request handler is a pure function from the request, the clock reading
  (`Date.now()`, milliseconds) and the two collections to an `Outcome`: the
  response object as the handler left it, the collections afterwards, and the
  exception it threw, if any. `forgotPassword` reads the clock twice for the
  row it saves (lines 237-238) and takes both readings; every other handler
  takes one reading per run.
* The libraries the handlers call (bcryptjs, jsonwebtoken, crypto, the
  email pattern) are fields of `Env`.
* Identifiers the source files never bind (`bcrypt` in userModel.js,
  `precess` in userController.js) throw a ReferenceError where they are
  evaluated, as they do in Node.
-/

namespace Inventory

/-! ## JavaScript values -/

/-- Truthiness of a request field that is a string when present:
`undefined` and the empty string are falsy. -/
def truthy : Option String → Bool
  | none => false
  | some s => s != ""

/-- The expression `a || b` for a request field `a` and a stored string `b`. -/
def orElse (a : Option String) (b : String) : String :=
  match a with
  | some s => if s != "" then s else b
  | none => b

/-- The `length` of a JavaScript string: its number of UTF-16 code units. -/
def jsLength (s : String) : Nat :=
  (s.toList.map (fun c => if c.toNat < 65536 then 1 else 2)).sum

/-- The characters `String.prototype.trim` strips: the white space and line
terminator code points of ECMAScript. -/
def isJsWhiteSpace (c : Char) : Bool :=
  [0x09, 0x0A, 0x0B, 0x0C, 0x0D, 0x20, 0xA0, 0x1680, 0x2028, 0x2029, 0x202F, 0x205F,
    0x3000, 0xFEFF].contains c.toNat
    || (decide (0x2000 ≤ c.toNat) && decide (c.toNat ≤ 0x200A))

/-- The method `String.prototype.trim`: white space removed from both ends. -/
def jsTrim (s : String) : String :=
  String.mk (((s.toList.dropWhile isJsWhiteSpace).reverse.dropWhile isJsWhiteSpace).reverse)

/-! ## Data model -/

/-- A document of the User collection (userModel.js, with `timestamps: true`). -/
structure User where
  _id : String
  name : String
  email : String
  password : String
  photo : String
  phone : String
  bio : String
  createdAt : Nat
  updatedAt : Nat
deriving DecidableEq

/-- Modelled from the spec: the ResetToken record declared in models/tokenModel.js,
which is not among the source files: owning user identifier, digest of the
secret, createdAt and expiresAt. -/
structure Token where
  userId : String
  token : String
  createdAt : Nat
  expiresAt : Nat
deriving DecidableEq

/-- The two collections. -/
structure Db where
  users : List User
  tokens : List Token
deriving DecidableEq

/-- A signed session token of jsonwebtoken: payload `id`, `iat`, `exp` (seconds)
and the signature over it. -/
structure Jwt where
  id : String
  iat : Nat
  exp : Nat
  signature : String
deriving DecidableEq

/-- External collaborators of the handlers. -/
structure Env where
  /-- The call `bcrypt.compare(plaintext, hash)` as imported by userController.js. -/
  bcryptCompare : String → String → Bool
  /-- The digest `crypto.createHash("sha256").update(s).digest("hex")`. -/
  sha256 : String → String
  /-- The signature jsonwebtoken computes under `process.env.JWT_SECRET`. -/
  jwtMac : String → Nat → Nat → String
  /-- The `match` pattern of the email path. -/
  emailOk : String → Bool
  /-- What `User.findOne` returns for a filter whose email is `undefined`. -/
  findOneUndefinedEmail : List User → Option User

/-! ## jsonwebtoken -/

/-- The call `jwt.sign(payload, secret, expiresIn)` with `expiresIn` in seconds. -/
def jwtSign (env : Env) (now : Nat) (id : String) (expiresIn : Nat) : Jwt :=
  { id := id, iat := now / 1000, exp := now / 1000 + expiresIn,
    signature := env.jwtMac id (now / 1000) (now / 1000 + expiresIn) }

/-- The call `jwt.verify(token, secret)`: the payload identity when the signature is the
one the secret yields and the expiry lies ahead; `none` stands for the
exception jsonwebtoken throws otherwise. -/
def jwtVerify (env : Env) (now : Nat) (t : Jwt) : Option String :=
  if t.signature = env.jwtMac t.id t.iat t.exp ∧ now / 1000 < t.exp then some t.id else none

/-- The function `generateToken` (userController.js lines 9-11): expiry one day. -/
def generateToken (env : Env) (now : Nat) (id : String) : Jwt :=
  jwtSign env now id 86400

/-! ## Responses -/

/-- A cookie set through `res.cookie`; the value `none` is the empty string. -/
structure Cookie where
  name : String
  value : Option Jwt
  path : String
  httpOnly : Bool
  expires : Nat
  sameSite : String
  secure : Bool
deriving DecidableEq

/-- The JSON (or text) a handler sends. -/
inductive Body where
  | profile (_id name email photo phone bio : String) (token : Option Jwt)
  | message (message : String)
  | success (message : String)
  | text (text : String)
  | bool (value : Bool)
deriving DecidableEq

/-- The Express response object: status code, cookies set, body sent. -/
structure Res where
  statusCode : Nat
  cookies : List Cookie
  body : Option Body
deriving DecidableEq

/-- What a handler throws. -/
inductive Err where
  /-- A `throw new Error(message)` of the handler itself. -/
  | error (message : String)
  /-- Evaluation of an identifier that no scope binds. -/
  | referenceError (identifier : String)
  /-- Property assignment on `null`. -/
  | typeError
  /-- Rejection of a document by the schema validators. -/
  | validationError
  /-- Rejection of an insert by the unique index on email. -/
  | duplicateKey
  /-- Rejection of a session token by `jwt.verify`. -/
  | jwtError
deriving DecidableEq

/-- The result of running a handler. -/
structure Outcome where
  res : Res
  db : Db
  thrown : Option Err
deriving DecidableEq

/-- The response object a handler starts from. -/
def freshRes : Res := { statusCode := 200, cookies := [], body := none }

/-- The session cookie of `res.cookie("token", token, ...)` in register and login. -/
def sessionCookie (now : Nat) (token : Jwt) : Cookie :=
  { name := "token", value := some token, path := "/", httpOnly := true,
    expires := now + 1000 * 86400, sameSite := "none", secure := true }

/-- The public fields `_id, name, email, photo, phone, bio` of a user. -/
def profileOf (u : User) (token : Option Jwt) : Body :=
  .profile u._id u.name u.email u.photo u.phone u.bio token

/-- The middleware `errorHandler` (errorMiddleware.js lines 3-4): the status code the response
carries when an exception reaches it is kept, and 500 replaces a falsy one.
The object for `res.json` on lines 6-10 reads `ProcessingInstruction`, which
nothing binds, so the middleware throws there and sends no body of its own. -/
def errorHandler (res : Res) : Res :=
  { res with statusCode := if res.statusCode != 0 then res.statusCode else 500 }

/-- The final handler of Express, which answers once `errorHandler` has thrown:
a status code from 400 to 599 on the response is kept, any other becomes 500. -/
def finalHandler (res : Res) : Res :=
  { res with
    statusCode :=
      if 400 ≤ res.statusCode ∧ res.statusCode ≤ 599 then res.statusCode else 500 }

/-- The status code of the response to a request: the one the handler sent, or,
when it threw, the one left by `errorHandler` and then the final handler. -/
def responseStatus (out : Outcome) : Nat :=
  match out.thrown with
  | none => out.res.statusCode
  | some _ => (finalHandler (errorHandler out.res)).statusCode

/-! ## The User model -/

/-- The query `User.findOne(email)` for a string email. The email path is declared
`trim: true` (userModel.js line 13) and the setter is applied to the filter, so
the query returns the first document whose email is the trimmed request email. -/
def findOneByEmail (users : List User) (email : String) : Option User :=
  users.find? (fun u => u.email == jsTrim email)

/-- The query `User.findById(id)`, also `User.findOne(_id)`. -/
def findById (users : List User) (id : String) : Option User :=
  users.find? (fun u => u._id == id)

/-- The validators of userSchema: `required` on name, email, password and photo,
the email pattern, `minLength` 6 on password and `maxLength` 250 on bio. -/
def userValid (env : Env) (u : User) : Bool :=
  u.name != "" && u.email != "" && env.emailOk u.email && u.password != ""
    && decide (6 ≤ jsLength u.password) && u.photo != ""
    && decide (jsLength u.bio ≤ 250)

/-- The hook `userSchema.pre("save")` (userModel.js lines 44-54). When the
password path is unmodified it returns through `next()`. Otherwise it
evaluates `bcrypt.genSalt(10)`; the module binds its bcryptjs import to the
name `bcrpt` (line 2), so the identifier `bcrypt` is unbound and the hook throws. -/
def preSaveHook (passwordModified : Bool) (doc : User) : Except Err User :=
  if !passwordModified then .ok doc
  else .error (.referenceError "bcrypt")

/-- The update `save` sends: the first stored document with the id of `doc` is replaced. -/
def replaceById (users : List User) (doc : User) : List User :=
  match users with
  | [] => []
  | u :: rest => if u._id == doc._id then doc :: rest else u :: replaceById rest doc

/-- The method `save()` on a document `doc` loaded as `orig`: validation, then the
pre-save hook, then the write, which stamps `updatedAt` when a path changed. -/
def saveUser (env : Env) (now : Nat) (users : List User) (orig doc : User) :
    Except Err (List User × User) :=
  if !userValid env doc then .error .validationError
  else
    match preSaveHook (doc.password != orig.password) doc with
    | .error e => .error e
    | .ok d =>
      let stored := if d = orig then d else { d with updatedAt := now }
      .ok (replaceById users stored, stored)

/-- The call `User.create(name, email, password)`: schema defaults, the `trim`
setter of the email path, validation, the
pre-save hook on a new document (every set path counts as modified), then the
insert under the unique index on email. -/
def createUser (env : Env) (now : Nat) (newId : String) (users : List User)
    (name email password : String) : Except Err (List User × User) :=
  let doc : User :=
    { _id := newId, name := name, email := jsTrim email, password := password,
      photo := "https://i.ibb.co/4pDNDk1/avatar.png", phone := "+91", bio := "bio",
      createdAt := now, updatedAt := now }
  if !userValid env doc then .error .validationError
  else
    match preSaveHook true doc with
    | .error e => .error e
    | .ok d =>
      if users.any (fun u => u.email == d.email) then .error .duplicateKey
      else .ok (users ++ [d], d)

/-! ## Request bodies -/

/-- The fields `registerUser` reads from `req.body`. -/
structure RegisterBody where
  name : Option String
  email : Option String
  password : Option String

/-- The fields `loginUser` reads from `req.body`. -/
structure LoginBody where
  email : Option String
  password : Option String

/-- The fields of an update request; `updateUser` never reads `email`. -/
structure UpdateBody where
  name : Option String
  email : Option String
  phone : Option String
  bio : Option String
  photo : Option String

/-- The fields `changePassword` reads from `req.body`. -/
structure ChangePasswordBody where
  oldPassword : Option String
  password : Option String

/-! ## Handlers of userController.js -/

/-- Handler `registerUser` (lines 14-64). `newId` is the identifier the store assigns. -/
def registerUser (env : Env) (now : Nat) (newId : String) (body : RegisterBody) (db : Db) :
    Outcome :=
  if !truthy body.name || !truthy body.email || !truthy body.password then
    { res := { freshRes with statusCode := 400 }, db := db,
      thrown := some (.error "Please fill all the required fields") }
  else if jsLength (body.password.getD "") < 6 then
    { res := { freshRes with statusCode := 400 }, db := db,
      thrown := some (.error "Password must be atleast of 6 characters") }
  else
    match findOneByEmail db.users (body.email.getD "") with
    | some _ =>
      { res := { freshRes with statusCode := 400 }, db := db,
        thrown := some (.error "Email already registered") }
    | none =>
      match createUser env now newId db.users (body.name.getD "") (body.email.getD "")
          (body.password.getD "") with
      | .error e => { res := freshRes, db := db, thrown := some e }
      | .ok (users, user) =>
        let token := generateToken env now user._id
        { res := { statusCode := 201, cookies := [sessionCookie now token],
                   body := some (profileOf user (some token)) },
          db := { db with users := users }, thrown := none }

/-- Handler `loginUser` (lines 67-108). -/
def loginUser (env : Env) (now : Nat) (body : LoginBody) (db : Db) : Outcome :=
  if !truthy body.email || !truthy body.password then
    { res := { freshRes with statusCode := 400 }, db := db,
      thrown := some (.error "Please enter email and password") }
  else
    match findOneByEmail db.users (body.email.getD "") with
    | none =>
      { res := { freshRes with statusCode := 400 }, db := db,
        thrown := some (.error "User not found") }
    | some user =>
      let passwordIsCorrect := env.bcryptCompare (body.password.getD "") user.password
      let token := generateToken env now user._id
      let res := { freshRes with cookies := [sessionCookie now token] }
      if passwordIsCorrect then
        { res := { res with statusCode := 200, body := some (profileOf user (some token)) },
          db := db, thrown := none }
      else
        { res := { res with statusCode := 400 }, db := db,
          thrown := some (.error "Invalid email or password") }

/-- Handler `logout` (lines 111-120). -/
def logout (db : Db) : Outcome :=
  { res := { statusCode := 200,
             cookies := [{ name := "token", value := none, path := "/", httpOnly := true,
                           expires := 0, sameSite := "none", secure := true }],
             body := some (.message "Logged out successfully") },
    db := db, thrown := none }

/-- Handler `getUser` (lines 123-135); `sessionUserId` is `req.user._id`. -/
def getUser (sessionUserId : String) (db : Db) : Outcome :=
  match findById db.users sessionUserId with
  | some user =>
    { res := { freshRes with statusCode := 200, body := some (profileOf user none) },
      db := db, thrown := none }
  | none =>
    { res := { freshRes with statusCode := 400 }, db := db,
      thrown := some (.error "User not found") }

/-- Handler `loginStatus` (lines 138-150); `token` is `req.cookies.token`, `none` when the
cookie is absent or empty. -/
def loginStatus (env : Env) (now : Nat) (token : Option Jwt) (db : Db) : Outcome :=
  match token with
  | none => { res := { freshRes with body := some (.bool false) }, db := db, thrown := none }
  | some t =>
    match jwtVerify env now t with
    | some _ => { res := { freshRes with body := some (.bool true) }, db := db, thrown := none }
    | none => { res := freshRes, db := db, thrown := some .jwtError }

/-- Handler `updateUser` (lines 153-177). -/
def updateUser (env : Env) (now : Nat) (sessionUserId : String) (body : UpdateBody) (db : Db) :
    Outcome :=
  match findById db.users sessionUserId with
  | some user =>
    let doc : User :=
      { user with
        email := user.email,
        name := orElse body.name user.name,
        phone := orElse body.phone user.phone,
        bio := orElse body.bio user.bio,
        photo := orElse body.photo user.photo }
    match saveUser env now db.users user doc with
    | .error e => { res := freshRes, db := db, thrown := some e }
    | .ok (users, updatedUser) =>
      { res := { freshRes with statusCode := 200, body := some (profileOf updatedUser none) },
        db := { db with users := users }, thrown := none }
  | none =>
    { res := { freshRes with statusCode := 404 }, db := db,
      thrown := some (.error "User not found") }

/-- Handler `changePassword` (lines 180-208). -/
def changePassword (env : Env) (now : Nat) (sessionUserId : String) (body : ChangePasswordBody)
    (db : Db) : Outcome :=
  match findById db.users sessionUserId with
  | none =>
    { res := { freshRes with statusCode := 400 }, db := db,
      thrown := some (.error "User not found, please signup") }
  | some user =>
    if !truthy body.oldPassword || !truthy body.password then
      { res := { freshRes with statusCode := 400 }, db := db,
        thrown := some (.error "Please add old and new password") }
    else
      let passwordIsCorrect := env.bcryptCompare (body.oldPassword.getD "") user.password
      if passwordIsCorrect then
        let doc : User := { user with password := body.password.getD "" }
        match saveUser env now db.users user doc with
        | .error e => { res := freshRes, db := db, thrown := some e }
        | .ok (users, _) =>
          { res := { freshRes with statusCode := 200,
                                   body := some (.text "Password changed successfully") },
            db := { db with users := users }, thrown := none }
      else
        { res := { freshRes with statusCode := 400 }, db := db,
          thrown := some (.error "Old password is not correct") }

/-- The secret `forgotPassword` builds on line 227: the hex rendering `rand` of
32 random bytes followed by the user identifier. -/
def resetSecret (rand : String) (user : User) : String :=
  rand ++ user._id

/-- The token row `forgotPassword` saves on lines 234-239: `createdAt` is the clock
reading `now` of line 237, `expiresAt` the reading `later` of line 238 plus 30 minutes. -/
def newToken (env : Env) (now later : Nat) (rand : String) (user : User) : Token :=
  { userId := user._id, token := env.sha256 (resetSecret rand user),
    createdAt := now, expiresAt := later + 30 * (60 * 1000) }

/-- Handler `forgotPassword` (lines 211-268); `now` and `later` are the clock
readings of lines 237 and 238. After the token row is saved, line 258 reads
`precess.env.EMAIL_USER`; nothing binds `precess`, so the handler throws there,
before the mail is sent and with the status code never set. -/
def forgotPassword (env : Env) (now later : Nat) (rand : String) (email : Option String)
    (db : Db) : Outcome :=
  let found :=
    match email with
    | some e => findOneByEmail db.users e
    | none => env.findOneUndefinedEmail db.users
  match found with
  | none =>
    { res := { freshRes with statusCode := 404 }, db := db,
      thrown := some (.error "User does not exist") }
  | some user =>
    let tokens :=
      match db.tokens.find? (fun t => t.userId == user._id) with
      | some _ => db.tokens.eraseP (fun t => t.userId == user._id)
      | none => db.tokens
    { res := freshRes,
      db := { db with tokens := tokens ++ [newToken env now later rand user] },
      thrown := some (.referenceError "precess") }

/-- Handler `resetPassword` (lines 271-297); `resetToken` is the path parameter. -/
def resetPassword (env : Env) (now : Nat) (resetToken : String) (password : Option String)
    (db : Db) : Outcome :=
  let hashedToken := env.sha256 resetToken
  match db.tokens.find? (fun t => t.token == hashedToken && decide (now < t.expiresAt)) with
  | none =>
    { res := { freshRes with statusCode := 404 }, db := db,
      thrown := some (.error "Invalid or Expired token") }
  | some userToken =>
    match findById db.users userToken.userId with
    | none => { res := freshRes, db := db, thrown := some .typeError }
    | some user =>
      match password with
      | none => { res := freshRes, db := db, thrown := some .validationError }
      | some p =>
        let doc : User := { user with password := p }
        match saveUser env now db.users user doc with
        | .error e => { res := freshRes, db := db, thrown := some e }
        | .ok (users, _) =>
          { res := { freshRes with
                       statusCode := 200,
                       body := some (.message "Password Reset Successful. Please login.") },
            db := { db with users := users }, thrown := none }

/-! ## Requests -/

/-- The requests the controller serves. -/
inductive Request where
  | register (newId : String) (body : RegisterBody)
  | login (body : LoginBody)
  | logout
  | getUser (sessionUserId : String)
  | loginStatus (token : Option Jwt)
  | updateUser (sessionUserId : String) (body : UpdateBody)
  | changePassword (sessionUserId : String) (body : ChangePasswordBody)
  | forgotPassword (later : Nat) (rand : String) (email : Option String)
  | resetPassword (resetToken : String) (password : Option String)

/-- One request served at clock reading `now`. -/
def handle (env : Env) (now : Nat) (req : Request) (db : Db) : Outcome :=
  match req with
  | .register newId body => registerUser env now newId body db
  | .login body => loginUser env now body db
  | .logout => logout db
  | .getUser id => getUser id db
  | .loginStatus token => loginStatus env now token db
  | .updateUser id body => updateUser env now id body db
  | .changePassword id body => changePassword env now id body db
  | .forgotPassword later rand email => forgotPassword env now later rand email db
  | .resetPassword resetToken password => resetPassword env now resetToken password db

/-! ## Predicates on the collections -/

/-- No two stored users share an email. -/
def emailsUnique (db : Db) : Prop :=
  (db.users.map (fun u => u.email)).Nodup

/-- The token collection holds at most one row per user. -/
def oneTokenPerUser (db : Db) : Prop :=
  ∀ uid : String, (db.tokens.filter (fun t => t.userId == uid)).length ≤ 1

/-! ## Sample collaborators and records -/

/-- Collaborators for concrete runs: a password verifies against the hash that
is `bcrypt:` followed by it, digests and signatures are tagged copies. -/
def sampleEnv : Env :=
  { bcryptCompare := fun p h => h == "bcrypt:" ++ p,
    sha256 := fun s => "sha256:" ++ s,
    jwtMac := fun id _ _ => "mac:" ++ id,
    emailOk := fun _ => true,
    findOneUndefinedEmail := fun _ => none }

/-- A hex rendering of 32 bytes, as `crypto.randomBytes(32).toString("hex")` yields. -/
def sampleRand : String :=
  "00112233445566778899aabbccddeeff00112233445566778899aabbccddeeff"

/-- A second hex rendering of 32 bytes. -/
def otherRand : String :=
  "ffeeddccbbaa99887766554433221100ffeeddccbbaa99887766554433221100"

/-- A stored user whose password hash is that of `secret1`. -/
def ann : User :=
  { _id := "64b7f0c2a1d3e4f5a6b7c8d9", name := "Ann", email := "ann@x.com", password := "bcrypt:secret1",
    photo := "https://i.ibb.co/4pDNDk1/avatar.png", phone := "+91", bio := "bio",
    createdAt := 0, updatedAt := 0 }

/-- A store holding `ann` and no token. -/
def annDb : Db := { users := [ann], tokens := [] }

/-- A store whose one token for `ann` has the digest of `s3cret` and expires at 1000. -/
def annTokenDb : Db :=
  { users := [ann],
    tokens := [{ userId := "64b7f0c2a1d3e4f5a6b7c8d9", token := "sha256:s3cret", createdAt := 0, expiresAt := 1000 }] }

/-- A bio of 251 characters. -/
def longBio : String := String.mk (List.replicate 251 'a')

/-! ## Lemmas on the model -/

theorem preSaveHook_ok (m : Bool) (doc d : User) (h : preSaveHook m doc = .ok d) :
    m = false ∧ d = doc := by
  unfold preSaveHook at h
  cases m <;> simp at h
  exact ⟨rfl, h.symm⟩

/-- The call `User.create` never returns: a new document reaches the hook with its password
path modified, if the validators let it through at all. -/
theorem createUser_error (env : Env) (now : Nat) (newId : String) (users : List User)
    (name email password : String) :
    ∃ e, createUser env now newId users name email password = .error e := by
  unfold createUser
  simp only [preSaveHook]
  split
  · exact ⟨_, rfl⟩
  · exact ⟨_, rfl⟩

/-- A token of `generateToken` verifies for one day from its issue. -/
theorem jwtVerify_generateToken (env : Env) (now later : Nat) (id : String)
    (h : later / 1000 < now / 1000 + 86400) :
    jwtVerify env later (generateToken env now id) = some id := by
  simp [jwtVerify, generateToken, jwtSign, h]

/-- The outcome of `loginUser` for a stored user and a password that does not verify. -/
theorem loginUser_wrong_password (env : Env) (now : Nat) (db : Db) (email password : String)
    (u : User) (hemail : email ≠ "") (hpw : password ≠ "")
    (hu : findOneByEmail db.users email = some u)
    (hbad : env.bcryptCompare password u.password = false) :
    loginUser env now ⟨some email, some password⟩ db =
      { res := { statusCode := 400, cookies := [sessionCookie now (generateToken env now u._id)],
                 body := none },
        db := db, thrown := some (.error "Invalid email or password") } := by
  simp [loginUser, truthy, hemail, hpw, hu, hbad, freshRes]

/-- A save that succeeds left the password path alone, passed the validators and
wrote the document, stamped when it differs from the loaded one. -/
theorem saveUser_ok (env : Env) (now : Nat) (users us : List User) (orig doc d : User)
    (h : saveUser env now users orig doc = .ok (us, d)) :
    doc.password = orig.password ∧ userValid env doc = true ∧
      d = (if doc = orig then doc else { doc with updatedAt := now }) ∧
      us = replaceById users d := by
  unfold saveUser at h
  by_cases hv : userValid env doc = true
  · by_cases hp : doc.password = orig.password
    · have hm : (doc.password != orig.password) = false := by simp [hp]
      simp only [hv, hm, preSaveHook, Bool.not_true, Bool.not_false,
        Bool.false_eq_true, if_false, if_true, Except.ok.injEq, Prod.mk.injEq] at h
      obtain ⟨h1, h2⟩ := h
      refine ⟨hp, hv, h2.symm, ?_⟩
      rw [← h1, h2]
    · simp [hv, hp, preSaveHook] at h
  · simp [hv] at h

/-- A save fails through the validators or through the hook, in no other way. -/
theorem saveUser_error (env : Env) (now : Nat) (users : List User) (orig doc : User) (e : Err)
    (h : saveUser env now users orig doc = .error e) :
    e = .validationError ∨ e = .referenceError "bcrypt" := by
  unfold saveUser at h
  by_cases hv : userValid env doc = true
  · by_cases hp : doc.password = orig.password
    · have hm : (doc.password != orig.password) = false := by simp [hp]
      simp [hv, hm, preSaveHook] at h
    · have hm : (doc.password != orig.password) = true := by simp [hp]
      simp [hv, hm, preSaveHook] at h
      exact Or.inr h.symm
  · simp [hv] at h
    exact Or.inl h.symm

/-- Replacing the first document of an id by itself changes nothing. -/
theorem replaceById_self (users : List User) (id : String) (u : User)
    (h : findById users id = some u) : replaceById users u = users := by
  induction users with
  | nil => simp [findById] at h
  | cons v rest ih =>
    unfold findById at h
    rw [List.find?_cons] at h
    by_cases hv : (v._id == id) = true
    · simp [hv] at h
      subst h
      simp [replaceById]
    · simp only [hv] at h
      have hid : u._id = id := by
        have := List.find?_some h
        simpa using this
      have hne : (v._id == u._id) = false := by
        rw [hid]; simpa using hv
      simp [replaceById, hne, ih h]

/-- The emails of the collection after the first document of an id is replaced by
one with the same email. -/
theorem replaceById_emails (users : List User) (id : String) (u d : User)
    (h : findById users id = some u) (hid : d._id = u._id) (hemail : d.email = u.email) :
    (replaceById users d).map (fun x => x.email) = users.map (fun x => x.email) := by
  induction users with
  | nil => simp [findById] at h
  | cons v rest ih =>
    unfold findById at h
    rw [List.find?_cons] at h
    by_cases hv : (v._id == id) = true
    · simp [hv] at h
      subst h
      simp [replaceById, hid, hemail]
    · simp only [hv] at h
      have huid : u._id = id := by
        have := List.find?_some h
        simpa using this
      have hne : (v._id == d._id) = false := by
        rw [hid, huid]; simpa using hv
      simp [replaceById, hne, ih h]

/-- The document found by id after the first document of that id is replaced. -/
theorem findById_replaceById (users : List User) (id : String) (u d : User)
    (h : findById users id = some u) (hid : d._id = u._id) :
    findById (replaceById users d) id = some d := by
  induction users with
  | nil => simp [findById] at h
  | cons v rest ih =>
    unfold findById at h
    rw [List.find?_cons] at h
    by_cases hv : (v._id == id) = true
    · simp [hv] at h
      subst h
      have : (d._id == id) = true := by rw [hid]; exact hv
      simp [replaceById, hid, findById, List.find?_cons, this, hv]
    · simp only [hv] at h
      have huid : u._id = id := by
        have := List.find?_some h
        simpa using this
      have hne : (v._id == d._id) = false := by
        rw [hid, huid]; simpa using hv
      have ih2 := ih h
      unfold findById at ih2
      simp [replaceById, hne, findById, List.find?_cons, hv, ih2]

/-- A save of a document loaded by id keeps the emails of the collection when the
document keeps its id and email. -/
theorem saveUser_emails (env : Env) (now : Nat) (users us : List User) (id : String)
    (orig doc d : User) (hfind : findById users id = some orig)
    (hid : doc._id = orig._id) (hemail : doc.email = orig.email)
    (h : saveUser env now users orig doc = .ok (us, d)) :
    us.map (fun x => x.email) = users.map (fun x => x.email) := by
  obtain ⟨_, _, hd, hus⟩ := saveUser_ok env now users us orig doc d h
  rw [hus]
  apply replaceById_emails users id orig d hfind
  · rw [hd]; split <;> simp [hid]
  · rw [hd]; split <;> simp [hemail]

/-- A save that only assigns the password path writes nothing: it succeeds only
when the assigned value is the stored one. -/
theorem saveUser_password_only (env : Env) (now : Nat) (users us : List User) (id p : String)
    (orig d : User) (hfind : findById users id = some orig)
    (h : saveUser env now users orig { orig with password := p } = .ok (us, d)) :
    us = users ∧ d = orig := by
  obtain ⟨hp, _, hd, hus⟩ := saveUser_ok env now users us orig _ d h
  have hdoc : ({ orig with password := p } : User) = orig := by
    cases orig
    simp at hp
    simp [hp]
  rw [hdoc] at hd
  simp at hd
  subst hd
  exact ⟨by rw [hus]; exact replaceById_self users id d hfind, rfl⟩

/-- Handler `changePassword` never changes a collection. -/
theorem changePassword_db (env : Env) (now : Nat) (id : String) (body : ChangePasswordBody)
    (db : Db) : (changePassword env now id body db).db = db := by
  unfold changePassword
  split
  · rfl
  · rename_i user hfind
    split
    · rfl
    · simp only
      split
      · split
        · rfl
        · rename_i us d hsave
          have := (saveUser_password_only env now db.users us id _ user d hfind hsave).1
          simp [this]
      · rfl

/-- Handler `resetPassword` never changes a collection. -/
theorem resetPassword_db (env : Env) (now : Nat) (resetToken : String)
    (password : Option String) (db : Db) :
    (resetPassword env now resetToken password db).db = db := by
  unfold resetPassword
  simp only
  split
  · rfl
  · rename_i userToken _
    split
    · rfl
    · rename_i user hfind
      split
      · rfl
      · split
        · rfl
        · rename_i us d hsave
          have := (saveUser_password_only env now db.users us _ _ user d hfind hsave).1
          simp [this]

/-- Handler `registerUser` never changes a collection. -/
theorem registerUser_db (env : Env) (now : Nat) (newId : String) (body : RegisterBody)
    (db : Db) : (registerUser env now newId body db).db = db := by
  unfold registerUser
  split
  · rfl
  · split
    · rfl
    · split
      · rfl
      · obtain ⟨e, he⟩ := createUser_error env now newId db.users (body.name.getD "")
          (body.email.getD "") (body.password.getD "")
        rw [he]

/-- Filtering by the predicate whose first match was erased drops the head of the filter. -/
theorem filter_eraseP_self (p : Token → Bool) (l : List Token) :
    (l.eraseP p).filter p = (l.filter p).tail := by
  induction l with
  | nil => simp
  | cons a rest ih =>
    by_cases ha : p a = true
    · simp [List.eraseP_cons, ha, List.filter_cons]
    · simp [List.eraseP_cons, ha, List.filter_cons, ih]

/-- Erasing a match of `p` leaves the filter by `q` alone when no match of `p` is one of `q`. -/
theorem filter_eraseP_other (p q : Token → Bool) (l : List Token)
    (h : ∀ x, p x = true → q x = false) :
    (l.eraseP p).filter q = l.filter q := by
  induction l with
  | nil => simp
  | cons a rest ih =>
    by_cases ha : p a = true
    · simp [List.eraseP_cons, ha, List.filter_cons, h a ha]
    · simp [List.eraseP_cons, ha, List.filter_cons, ih]

/-- The rows of user `uid` after `forgotPassword` deleted the token it found for `uid`. -/
theorem filter_after_delete_self (tokens : List Token) (uid : String) :
    List.filter (fun t : Token => t.userId == uid)
        (match tokens.find? (fun t => t.userId == uid) with
          | some _ => tokens.eraseP (fun t => t.userId == uid)
          | none => tokens)
      = (tokens.filter (fun t => t.userId == uid)).tail := by
  split
  · exact filter_eraseP_self _ tokens
  · rename_i hnone
    have : tokens.filter (fun t => t.userId == uid) = [] := by
      rw [List.filter_eq_nil_iff]
      intro a ha
      exact List.find?_eq_none.mp hnone a ha
    rw [this]; rfl

/-- The rows of another user after `forgotPassword` deleted the token it found for `uid`. -/
theorem filter_after_delete_other (tokens : List Token) (uid other : String) (h : other ≠ uid) :
    List.filter (fun t : Token => t.userId == other)
        (match tokens.find? (fun t => t.userId == uid) with
          | some _ => tokens.eraseP (fun t => t.userId == uid)
          | none => tokens)
      = tokens.filter (fun t => t.userId == other) := by
  split
  · apply filter_eraseP_other
    intro x hx
    have hx1 : x.userId = uid := by simpa using hx
    simpa [hx1] using fun e : uid = other => h e.symm
  · rfl

/-- The outcome of `forgotPassword` once the lookup found `user`. -/
theorem forgotPassword_found (env : Env) (now later : Nat) (rand email : String) (db : Db)
    (user : User) (h : findOneByEmail db.users email = some user) :
    forgotPassword env now later rand (some email) db =
      { res := freshRes,
        db := { db with tokens :=
          (match db.tokens.find? (fun t => t.userId == user._id) with
            | some _ => db.tokens.eraseP (fun t => t.userId == user._id)
            | none => db.tokens) ++ [newToken env now later rand user] },
        thrown := some (.referenceError "precess") } := by
  simp [forgotPassword, h]

/-- Handler `forgotPassword` keeps the token collection at one row per user at most. -/
theorem forgotPassword_oneToken (env : Env) (now later : Nat) (rand : String)
    (email : Option String) (db : Db) (hinv : oneTokenPerUser db) :
    oneTokenPerUser (forgotPassword env now later rand email db).db := by
  unfold forgotPassword
  simp only
  split
  · exact hinv
  · rename_i user _
    intro uid
    simp only [List.filter_append]
    by_cases huid : uid = user._id
    · subst huid
      rw [filter_after_delete_self]
      have h1 := hinv user._id
      simp only [List.length_append, List.length_tail]
      have h2 : ([newToken env now later rand user].filter
          (fun t => t.userId == user._id)).length ≤ 1 :=
        le_trans (List.length_filter_le _ _) (by simp)
      omega
    · rw [filter_after_delete_other _ _ _ huid]
      have h1 := hinv uid
      have h2 : [newToken env now later rand user].filter (fun t => t.userId == uid) = [] := by
        simp [newToken]
        exact fun e => huid e.symm
      rw [h2]
      simpa using h1

/-- Handler `updateUser` never changes the token collection. -/
theorem updateUser_tokens (env : Env) (now : Nat) (id : String) (body : UpdateBody) (db : Db) :
    (updateUser env now id body db).db.tokens = db.tokens := by
  unfold updateUser
  split
  · simp only
    split <;> rfl
  · rfl

/-- Handler `updateUser` never changes the emails of the user collection. -/
theorem updateUser_emails (env : Env) (now : Nat) (id : String) (body : UpdateBody) (db : Db) :
    (updateUser env now id body db).db.users.map (fun u => u.email)
      = db.users.map (fun u => u.email) := by
  unfold updateUser
  split
  · rename_i user hfind
    simp only
    split
    · rfl
    · rename_i us d hsave
      exact saveUser_emails env now db.users us id user _ d hfind (by rfl) (by rfl) hsave
  · rfl

/-- Every handler other than `updateUser` and `forgotPassword` returns the user
collection it was given; `forgotPassword` does too. -/
theorem handle_emails (env : Env) (now : Nat) (req : Request) (db : Db) :
    (handle env now req db).db.users.map (fun u => u.email)
      = db.users.map (fun u => u.email) := by
  cases req with
  | register newId body => simp [handle, registerUser_db]
  | login body =>
    simp only [handle, loginUser]
    split
    · rfl
    · split
      · rfl
      · split <;> rfl
  | logout => rfl
  | getUser id => simp only [handle, getUser]; split <;> rfl
  | loginStatus token =>
    simp only [handle, loginStatus]
    split
    · rfl
    · split <;> rfl
  | updateUser id body => exact updateUser_emails env now id body db
  | changePassword id body => simp [handle, changePassword_db]
  | forgotPassword later rand email =>
    simp only [handle, forgotPassword]
    split <;> rfl
  | resetPassword resetToken password => simp [handle, resetPassword_db]

/-- Every handler keeps the token collection at one row per user at most. -/
theorem handle_oneToken (env : Env) (now : Nat) (req : Request) (db : Db)
    (hinv : oneTokenPerUser db) : oneTokenPerUser (handle env now req db).db := by
  cases req with
  | register newId body => simpa [handle, registerUser_db] using hinv
  | login body =>
    simp only [handle, loginUser]
    split
    · exact hinv
    · split
      · exact hinv
      · split <;> exact hinv
  | logout => exact hinv
  | getUser id => simp only [handle, getUser]; split <;> exact hinv
  | loginStatus token =>
    simp only [handle, loginStatus]
    split
    · exact hinv
    · split <;> exact hinv
  | updateUser id body =>
    intro uid
    simp only [handle]
    rw [updateUser_tokens]
    exact hinv uid
  | changePassword id body => simpa [handle, changePassword_db] using hinv
  | forgotPassword later rand email =>
    exact forgotPassword_oneToken env now later rand email db hinv
  | resetPassword resetToken password => simpa [handle, resetPassword_db] using hinv

/-! ## Login with a password that does not verify -/

/-- C1, as the code behaves: for a stored user and a login request with that email
and a password that does not verify, `loginUser` ends with status 400 and the error
"Invalid email or password" and sends no body, yet the response carries a cookie
named token whose value `jwt.verify` accepts for that user: the cookie is set on
lines 87-97, before the check of line 99. -/
theorem loginUser_wrong_password_sets_valid_cookie (env : Env) (now : Nat) (db : Db)
    (email password : String) (u : User) (hemail : email ≠ "") (hpw : password ≠ "")
    (hu : findOneByEmail db.users email = some u)
    (hbad : env.bcryptCompare password u.password = false) :
    responseStatus (loginUser env now ⟨some email, some password⟩ db) = 400 ∧
      (loginUser env now ⟨some email, some password⟩ db).thrown
        = some (.error "Invalid email or password") ∧
      (loginUser env now ⟨some email, some password⟩ db).res.body = none ∧
      ∃ c ∈ (loginUser env now ⟨some email, some password⟩ db).res.cookies,
        c.name = "token" ∧ ∃ t, c.value = some t ∧ jwtVerify env now t = some u._id := by
  rw [loginUser_wrong_password env now db email password u hemail hpw hu hbad]
  refine ⟨by simp [responseStatus, errorHandler, finalHandler], rfl, rfl, ?_⟩
  refine ⟨sessionCookie now (generateToken env now u._id), by simp, rfl, _, rfl, ?_⟩
  exact jwtVerify_generateToken env now now u._id (by omega)

/-- C1 at a concrete request: the email of `ann` with the password `wrong`. -/
theorem loginUser_wrong_password_sets_valid_cookie_witness :
    sampleEnv.bcryptCompare "wrong" ann.password = false ∧
      (responseStatus (loginUser sampleEnv 0 ⟨some "ann@x.com", some "wrong"⟩ annDb) = 400 ∧
        (loginUser sampleEnv 0 ⟨some "ann@x.com", some "wrong"⟩ annDb).thrown
          = some (.error "Invalid email or password") ∧
        (loginUser sampleEnv 0 ⟨some "ann@x.com", some "wrong"⟩ annDb).res.body = none ∧
        ∃ c ∈ (loginUser sampleEnv 0 ⟨some "ann@x.com", some "wrong"⟩ annDb).res.cookies,
          c.name = "token" ∧ ∃ t, c.value = some t ∧ jwtVerify sampleEnv 0 t = some ann._id) :=
  ⟨by decide,
    loginUser_wrong_password_sets_valid_cookie sampleEnv 0 annDb "ann@x.com" "wrong" ann
      (by decide) (by decide) (by decide) (by decide)⟩

/-! ## Change of password with a wrong old password -/

/-- C2: for an existing user and a request with non-empty oldPassword and password
whose oldPassword does not verify against the stored hash, `changePassword` ends
with status 400 and the error "Old password is not correct", and both collections
are exactly what they were. -/
theorem changePassword_wrong_old_password (env : Env) (now : Nat) (db : Db) (id : String)
    (u : User) (oldPassword password : String)
    (hu : findById db.users id = some u) (hold : oldPassword ≠ "") (hnew : password ≠ "")
    (hbad : env.bcryptCompare oldPassword u.password = false) :
    responseStatus (changePassword env now id ⟨some oldPassword, some password⟩ db) = 400 ∧
      (changePassword env now id ⟨some oldPassword, some password⟩ db).thrown
        = some (.error "Old password is not correct") ∧
      (changePassword env now id ⟨some oldPassword, some password⟩ db).db = db ∧
      findById (changePassword env now id ⟨some oldPassword, some password⟩ db).db.users id
        = some u := by
  have h : changePassword env now id ⟨some oldPassword, some password⟩ db =
      { res := { freshRes with statusCode := 400 }, db := db,
        thrown := some (.error "Old password is not correct") } := by
    simp [changePassword, hu, truthy, hold, hnew, hbad]
  rw [h]
  exact ⟨by simp [responseStatus, errorHandler, finalHandler, freshRes], rfl, rfl, hu⟩

/-- C2 at a concrete request of `ann` with the old password `wrong`. -/
theorem changePassword_wrong_old_password_witness :
    findById annDb.users "64b7f0c2a1d3e4f5a6b7c8d9" = some ann ∧
      sampleEnv.bcryptCompare "wrong" ann.password = false ∧
      (responseStatus (changePassword sampleEnv 7 "64b7f0c2a1d3e4f5a6b7c8d9" ⟨some "wrong", some "secret2"⟩ annDb) = 400 ∧
        (changePassword sampleEnv 7 "64b7f0c2a1d3e4f5a6b7c8d9" ⟨some "wrong", some "secret2"⟩ annDb).thrown
          = some (.error "Old password is not correct") ∧
        (changePassword sampleEnv 7 "64b7f0c2a1d3e4f5a6b7c8d9" ⟨some "wrong", some "secret2"⟩ annDb).db = annDb ∧
        findById (changePassword sampleEnv 7 "64b7f0c2a1d3e4f5a6b7c8d9" ⟨some "wrong", some "secret2"⟩ annDb).db.users
          "64b7f0c2a1d3e4f5a6b7c8d9" = some ann) :=
  ⟨by decide, by decide,
    changePassword_wrong_old_password sampleEnv 7 annDb "64b7f0c2a1d3e4f5a6b7c8d9" ann "wrong" "secret2"
      (by decide) (by decide) (by decide) (by decide)⟩

/-! ## Reset with no live token -/

/-- C4: when no stored token has the digest of the presented secret together with
an expiresAt strictly greater than now, `resetPassword` ends with status 404 and
the error "Invalid or Expired token", whatever the reason, sends no body, and
both collections are what they were. -/
theorem resetPassword_no_live_token (env : Env) (now : Nat) (db : Db) (secret : String)
    (password : Option String)
    (h : ∀ t ∈ db.tokens, ¬ (t.token = env.sha256 secret ∧ now < t.expiresAt)) :
    responseStatus (resetPassword env now secret password db) = 404 ∧
      (resetPassword env now secret password db).thrown
        = some (.error "Invalid or Expired token") ∧
      (resetPassword env now secret password db).res.body = none ∧
      (resetPassword env now secret password db).db = db := by
  have hnone : db.tokens.find?
      (fun t => t.token == env.sha256 secret && decide (now < t.expiresAt)) = none := by
    rw [List.find?_eq_none]
    intro t ht
    have := h t ht
    simpa using this
  have hout : resetPassword env now secret password db =
      { res := { freshRes with statusCode := 404 }, db := db,
        thrown := some (.error "Invalid or Expired token") } := by
    simp [resetPassword, hnone]
  rw [hout]
  exact ⟨by simp [responseStatus, errorHandler, finalHandler, freshRes], rfl, rfl, rfl⟩

/-- C4 at the boundary: the right secret presented at the very instant the token expires. -/
theorem resetPassword_no_live_token_witness :
    (∀ t ∈ annTokenDb.tokens, ¬ (t.token = sampleEnv.sha256 "s3cret" ∧ 1000 < t.expiresAt)) ∧
      (responseStatus (resetPassword sampleEnv 1000 "s3cret" (some "secret2") annTokenDb) = 404 ∧
        (resetPassword sampleEnv 1000 "s3cret" (some "secret2") annTokenDb).thrown
          = some (.error "Invalid or Expired token") ∧
        (resetPassword sampleEnv 1000 "s3cret" (some "secret2") annTokenDb).res.body = none ∧
        (resetPassword sampleEnv 1000 "s3cret" (some "secret2") annTokenDb).db = annTokenDb) :=
  ⟨by decide,
    resetPassword_no_live_token sampleEnv 1000 annTokenDb "s3cret" (some "secret2") (by decide)⟩

/-! ## Requests that address a user who does not exist -/

/-- C7 fails on the code: `loginUser` with an email of no stored user and `getUser`
with a session id of no stored user end with status 400, not 404. -/
theorem missing_user_status_not_404 :
    findOneByEmail annDb.users "bob@x.com" = none ∧
      responseStatus (loginUser sampleEnv 0 ⟨some "bob@x.com", some "secret1"⟩ annDb) = 400 ∧
      ¬ responseStatus (loginUser sampleEnv 0 ⟨some "bob@x.com", some "secret1"⟩ annDb) = 404 ∧
      findById annDb.users "64b7f0c2a1d3e4f5a6b7c8ff" = none ∧
      ¬ responseStatus (getUser "64b7f0c2a1d3e4f5a6b7c8ff" annDb) = 404 := by
  decide

/-- C7 as amended: when the user a request addresses does not exist, `updateUser`
and `forgotPassword` end with status 404, while `loginUser`, `getUser` and
`changePassword` end with status 400. -/
theorem missing_user_statuses (env : Env) (now : Nat) (db : Db) :
    (∀ (body : LoginBody) (email : String), body.email = some email →
        findOneByEmail db.users email = none →
        responseStatus (loginUser env now body db) = 400) ∧
      (∀ id : String, findById db.users id = none →
        responseStatus (getUser id db) = 400 ∧
          (getUser id db).thrown = some (.error "User not found")) ∧
      (∀ (id : String) (body : ChangePasswordBody), findById db.users id = none →
        responseStatus (changePassword env now id body db) = 400 ∧
          (changePassword env now id body db).thrown
            = some (.error "User not found, please signup")) ∧
      (∀ (id : String) (body : UpdateBody), findById db.users id = none →
        responseStatus (updateUser env now id body db) = 404 ∧
          (updateUser env now id body db).thrown = some (.error "User not found")) ∧
      (∀ (later : Nat) (rand email : String), findOneByEmail db.users email = none →
        responseStatus (forgotPassword env now later rand (some email) db) = 404 ∧
          (forgotPassword env now later rand (some email) db).thrown
            = some (.error "User does not exist")) := by
  refine ⟨?_, ?_, ?_, ?_, ?_⟩
  · intro body email hbody hnone
    unfold loginUser
    split
    · simp [responseStatus, errorHandler, finalHandler, freshRes]
    · simp [hbody, hnone, responseStatus, errorHandler, finalHandler, freshRes]
  · intro id hnone
    simp [getUser, hnone, responseStatus, errorHandler, finalHandler, freshRes]
  · intro id body hnone
    simp [changePassword, hnone, responseStatus, errorHandler, finalHandler, freshRes]
  · intro id body hnone
    simp [updateUser, hnone, responseStatus, errorHandler, finalHandler, freshRes]
  · intro later rand email hnone
    simp [forgotPassword, hnone, responseStatus, errorHandler, finalHandler, freshRes]

/-- C7 as amended, at a store holding `ann` only. -/
theorem missing_user_statuses_witness :
    findOneByEmail annDb.users "bob@x.com" = none ∧ findById annDb.users "64b7f0c2a1d3e4f5a6b7c8ff" = none ∧
      responseStatus (loginUser sampleEnv 0 ⟨some "bob@x.com", some "secret1"⟩ annDb) = 400 ∧
      responseStatus (getUser "64b7f0c2a1d3e4f5a6b7c8ff" annDb) = 400 ∧
      responseStatus (changePassword sampleEnv 0 "64b7f0c2a1d3e4f5a6b7c8ff" ⟨some "secret1", some "secret2"⟩ annDb)
        = 400 ∧
      responseStatus (updateUser sampleEnv 0 "64b7f0c2a1d3e4f5a6b7c8ff" ⟨some "Bob", none, none, none, none⟩ annDb)
        = 404 ∧
      responseStatus (forgotPassword sampleEnv 0 0 sampleRand (some "bob@x.com") annDb) = 404 :=
  ⟨by decide, by decide,
    (missing_user_statuses sampleEnv 0 annDb).1 ⟨some "bob@x.com", some "secret1"⟩ "bob@x.com"
      rfl (by decide),
    ((missing_user_statuses sampleEnv 0 annDb).2.1 "64b7f0c2a1d3e4f5a6b7c8ff" (by decide)).1,
    ((missing_user_statuses sampleEnv 0 annDb).2.2.1 "64b7f0c2a1d3e4f5a6b7c8ff" ⟨some "secret1", some "secret2"⟩
      (by decide)).1,
    ((missing_user_statuses sampleEnv 0 annDb).2.2.2.1 "64b7f0c2a1d3e4f5a6b7c8ff" ⟨some "Bob", none, none, none, none⟩
      (by decide)).1,
    ((missing_user_statuses sampleEnv 0 annDb).2.2.2.2 0 sampleRand "bob@x.com" (by decide)).1⟩

/-! ## Required fields -/

/-- C8 fails on the code: `forgotPassword` with an empty email ends with status 404,
the outcome of the user lookup, not with 400; so does `resetPassword` with an empty
password and a secret of no stored token. -/
theorem empty_field_status_not_400 :
    truthy (some "") = false ∧
      responseStatus (forgotPassword sampleEnv 0 0 sampleRand (some "") annDb) = 404 ∧
      ¬ responseStatus (forgotPassword sampleEnv 0 0 sampleRand (some "") annDb) = 400 ∧
      responseStatus (resetPassword sampleEnv 0 "s3cret" (some "") annDb) = 404 ∧
      ¬ responseStatus (resetPassword sampleEnv 0 "s3cret" (some "") annDb) = 400 := by
  decide

/-- C8 as amended: `registerUser` and `loginUser` answer a request with a missing or
empty required field with status 400 and an outcome that depends on no collection
and no collaborator; `changePassword` does so for an existing user, after the
lookup of that user; `forgotPassword` and `resetPassword` check no field: they
never end with status 400, a missing or empty email is looked up like any other
(404 when the lookup finds no user), and `resetPassword` changes no collection. -/
theorem required_field_checks (env : Env) (now : Nat) (db : Db) :
    (∀ (newId : String) (body : RegisterBody),
        (truthy body.name && truthy body.email && truthy body.password) = false →
        registerUser env now newId body db =
          { res := { statusCode := 400, cookies := [], body := none }, db := db,
            thrown := some (.error "Please fill all the required fields") }) ∧
      (∀ body : LoginBody, (truthy body.email && truthy body.password) = false →
        loginUser env now body db =
          { res := { statusCode := 400, cookies := [], body := none }, db := db,
            thrown := some (.error "Please enter email and password") }) ∧
      (∀ (id : String) (body : ChangePasswordBody) (u : User), findById db.users id = some u →
        (truthy body.oldPassword && truthy body.password) = false →
        changePassword env now id body db =
          { res := { statusCode := 400, cookies := [], body := none }, db := db,
            thrown := some (.error "Please add old and new password") }) ∧
      (∀ (later : Nat) (rand : String) (email : Option String),
        ¬ responseStatus (forgotPassword env now later rand email db) = 400 ∧
          (email = some "" → findOneByEmail db.users "" = none →
            forgotPassword env now later rand email db =
              { res := { statusCode := 404, cookies := [], body := none }, db := db,
                thrown := some (.error "User does not exist") }) ∧
          (email = none → env.findOneUndefinedEmail db.users = none →
            forgotPassword env now later rand email db =
              { res := { statusCode := 404, cookies := [], body := none }, db := db,
                thrown := some (.error "User does not exist") })) ∧
      (∀ (secret : String) (password : Option String),
        ¬ responseStatus (resetPassword env now secret password db) = 400 ∧
          (resetPassword env now secret password db).db = db) := by
  refine ⟨?_, ?_, ?_, ?_, ?_⟩
  · intro newId body h
    have h2 : (!truthy body.name || !truthy body.email || !truthy body.password) = true := by
      revert h
      cases truthy body.name <;> cases truthy body.email <;> cases truthy body.password <;> simp
    simp [registerUser, h2, freshRes]
  · intro body h
    have h2 : (!truthy body.email || !truthy body.password) = true := by
      revert h
      cases truthy body.email <;> cases truthy body.password <;> simp
    simp [loginUser, h2, freshRes]
  · intro id body u hu h
    have h2 : (!truthy body.oldPassword || !truthy body.password) = true := by
      revert h
      cases truthy body.oldPassword <;> cases truthy body.password <;> simp
    simp [changePassword, hu, h2, freshRes]
  · intro later rand email
    refine ⟨?_, ?_, ?_⟩
    · unfold forgotPassword
      simp only
      split <;> simp [responseStatus, errorHandler, finalHandler, freshRes]
    · intro he hnone
      subst he
      simp [forgotPassword, hnone, freshRes]
    · intro he hnone
      subst he
      simp [forgotPassword, hnone, freshRes]
  · intro secret password
    refine ⟨?_, resetPassword_db env now secret password db⟩
    unfold resetPassword
    simp only
    split
    · simp [responseStatus, errorHandler, finalHandler, freshRes]
    · split
      · simp [responseStatus, errorHandler, finalHandler, freshRes]
      · split
        · simp [responseStatus, errorHandler, finalHandler, freshRes]
        · split <;> simp [responseStatus, errorHandler, finalHandler, freshRes]

/-- C8 as amended, at a store holding `ann` only. -/
theorem required_field_checks_witness :
    (truthy (some "Eve") && truthy none && truthy (some "secret9")) = false ∧
      findById annDb.users "64b7f0c2a1d3e4f5a6b7c8d9" = some ann ∧
      findOneByEmail annDb.users "" = none ∧
      registerUser sampleEnv 0 "64b7f0c2a1d3e4f5a6b7c8da" ⟨some "Eve", none, some "secret9"⟩ annDb =
        { res := { statusCode := 400, cookies := [], body := none }, db := annDb,
          thrown := some (.error "Please fill all the required fields") } ∧
      loginUser sampleEnv 0 ⟨some "ann@x.com", some ""⟩ annDb =
        { res := { statusCode := 400, cookies := [], body := none }, db := annDb,
          thrown := some (.error "Please enter email and password") } ∧
      changePassword sampleEnv 0 "64b7f0c2a1d3e4f5a6b7c8d9" ⟨none, some "secret2"⟩ annDb =
        { res := { statusCode := 400, cookies := [], body := none }, db := annDb,
          thrown := some (.error "Please add old and new password") } ∧
      forgotPassword sampleEnv 0 0 sampleRand (some "") annDb =
        { res := { statusCode := 404, cookies := [], body := none }, db := annDb,
          thrown := some (.error "User does not exist") } ∧
      (resetPassword sampleEnv 0 "s3cret" none annTokenDb).db = annTokenDb :=
  ⟨by decide, by decide, by decide,
    (required_field_checks sampleEnv 0 annDb).1 "64b7f0c2a1d3e4f5a6b7c8da" ⟨some "Eve", none, some "secret9"⟩
      (by decide),
    (required_field_checks sampleEnv 0 annDb).2.1 ⟨some "ann@x.com", some ""⟩ (by decide),
    (required_field_checks sampleEnv 0 annDb).2.2.1 "64b7f0c2a1d3e4f5a6b7c8d9" ⟨none, some "secret2"⟩ ann
      (by decide) (by decide),
    ((required_field_checks sampleEnv 0 annDb).2.2.2.1 0 sampleRand (some "")).2.1 rfl
      (by decide),
    ((required_field_checks sampleEnv 0 annTokenDb).2.2.2.2 "s3cret" none).2⟩

/-! ## One reset token per user -/

/-- C5 fails on the code: in a second run of `forgotPassword` whose clock readings
on lines 237 and 238 are 9 and 10, the one token row left for the user has
createdAt 9 and expiresAt 1800010, which is not createdAt plus 30 minutes. -/
theorem expiresAt_from_second_reading :
    findOneByEmail annTokenDb.users "ann@x.com" = some ann ∧
      List.filter (fun t : Token => t.userId == ann._id)
          (forgotPassword sampleEnv 9 10 otherRand (some "ann@x.com")
            (forgotPassword sampleEnv 5 5 sampleRand (some "ann@x.com") annTokenDb).db).db.tokens
        = [{ userId := ann._id, token := sampleEnv.sha256 (otherRand ++ ann._id),
             createdAt := 9, expiresAt := 1800010 }] ∧
      ¬ (1800010 = 9 + 30 * (60 * 1000)) := by
  decide

/-- C5 as amended: the predicate `oneTokenPerUser` is kept by every request, and
from a store that satisfies it two runs of `forgotPassword` for the email of a
stored user leave exactly one token row of that user, the row of the second run:
the digest of the second secret, createdAt the reading of line 237 in that run
and expiresAt the reading of line 238 in that run plus 30 minutes. -/
theorem oneTokenPerUser_preserved (env : Env) (db : Db) (hinv : oneTokenPerUser db) :
    (∀ (now : Nat) (req : Request), oneTokenPerUser (handle env now req db).db) ∧
      (∀ (t1 l1 t2 l2 : Nat) (r1 r2 email : String) (u : User),
        findOneByEmail db.users email = some u →
        List.filter (fun t : Token => t.userId == u._id)
            (forgotPassword env t2 l2 r2 (some email)
              (forgotPassword env t1 l1 r1 (some email) db).db).db.tokens
          = [{ userId := u._id, token := env.sha256 (r2 ++ u._id), createdAt := t2,
               expiresAt := l2 + 1800000 }]) := by
  refine ⟨fun now req => handle_oneToken env now req db hinv, ?_⟩
  intro t1 l1 t2 l2 r1 r2 email u hu
  have htail : (db.tokens.filter (fun t => t.userId == u._id)).tail = [] := by
    have hlen := hinv u._id
    cases hf : db.tokens.filter (fun t => t.userId == u._id) with
    | nil => rfl
    | cons a rest =>
      rw [hf] at hlen
      cases rest with
      | nil => rfl
      | cons b rest2 => simp at hlen
  rw [forgotPassword_found env t1 l1 r1 email db u hu]
  rw [forgotPassword_found env t2 l2 r2 email _ u (by exact hu)]
  simp only [List.filter_append]
  rw [filter_after_delete_self]
  simp only [List.filter_append]
  rw [filter_after_delete_self, htail]
  simp [newToken, resetSecret]

/-- C5 as amended, at a store that already holds a token of `ann`, with a clock
that advances between the two readings of each run. -/
theorem oneTokenPerUser_preserved_witness :
    oneTokenPerUser annTokenDb ∧
      findOneByEmail annTokenDb.users "ann@x.com" = some ann ∧
      oneTokenPerUser
        (handle sampleEnv 5 (.forgotPassword 6 sampleRand (some "ann@x.com")) annTokenDb).db ∧
      List.filter (fun t : Token => t.userId == ann._id)
          (forgotPassword sampleEnv 9 10 otherRand (some "ann@x.com")
            (forgotPassword sampleEnv 5 6 sampleRand (some "ann@x.com") annTokenDb).db).db.tokens
        = [{ userId := ann._id, token := sampleEnv.sha256 (otherRand ++ ann._id),
             createdAt := 9, expiresAt := 10 + 1800000 }] :=
  have h : oneTokenPerUser annTokenDb := by
    intro uid
    simp only [annTokenDb]
    exact le_trans (List.length_filter_le _ _) (by simp)
  ⟨h, by decide,
    (oneTokenPerUser_preserved sampleEnv annTokenDb h).1 5
      (.forgotPassword 6 sampleRand (some "ann@x.com")),
    (oneTokenPerUser_preserved sampleEnv annTokenDb h).2 5 6 9 10 sampleRand otherRand
      "ann@x.com" ann (by decide)⟩

/-! ## Email uniqueness -/

/-- The lookup by an email that, once trimmed, is the email of a stored user finds a user. -/
theorem findOneByEmail_of_mem (users : List User) (u : User) (email : String)
    (h : u ∈ users) (hemail : jsTrim email = u.email) :
    ∃ v, findOneByEmail users email = some v := by
  cases hf : findOneByEmail users email with
  | some v => exact ⟨v, rfl⟩
  | none =>
    unfold findOneByEmail at hf
    have := List.find?_eq_none.mp hf u h
    simp [hemail] at this

/-- The lookup trims the request email: a padded copy of the email of `ann` finds `ann`. -/
theorem findOneByEmail_trims :
    findOneByEmail annDb.users " ann@x.com " = some ann := by
  decide

/-- C6: no request makes two stored users share an email when none did before;
`registerUser` with an email that the lookup resolves to the email of a stored
user (the request email, trimmed as the schema trims every stored email) ends
with status 400 and creates no user, with the error "Email already registered"
once the field checks before the lookup are passed; `updateUser` changes no
stored email. -/
theorem emailsUnique_preserved (env : Env) (db : Db) (h : emailsUnique db) :
    (∀ (now : Nat) (req : Request), emailsUnique (handle env now req db).db) ∧
      (∀ (now : Nat) (newId : String) (body : RegisterBody) (u : User) (email : String),
        u ∈ db.users → body.email = some email → jsTrim email = u.email →
        responseStatus (registerUser env now newId body db) = 400 ∧
          (registerUser env now newId body db).db = db ∧
          (truthy body.name = true → truthy body.email = true → truthy body.password = true →
            6 ≤ jsLength (body.password.getD "") →
            (registerUser env now newId body db).thrown
              = some (.error "Email already registered"))) ∧
      (∀ (now : Nat) (id : String) (body : UpdateBody),
        (updateUser env now id body db).db.users.map (fun u => u.email)
          = db.users.map (fun u => u.email)) := by
  refine ⟨?_, ?_, fun now id body => updateUser_emails env now id body db⟩
  · intro now req
    unfold emailsUnique
    rw [handle_emails]
    exact h
  · intro now newId body u email hmem hbody htrim
    obtain ⟨v, hv⟩ := findOneByEmail_of_mem db.users u email hmem htrim
    refine ⟨?_, registerUser_db env now newId body db, ?_⟩
    · unfold registerUser
      split
      · simp [responseStatus, errorHandler, finalHandler, freshRes]
      · split
        · simp [responseStatus, errorHandler, finalHandler, freshRes]
        · simp [hbody, hv, responseStatus, errorHandler, finalHandler, freshRes]
    · intro h1 h2 h3 h4
      have h5 : ¬ jsLength (body.password.getD "") < 6 := by omega
      have h6 : truthy (some email) = true := by rw [← hbody]; exact h2
      simp [registerUser, h1, h2, h3, h5, h6, hbody, hv]

/-- C6 at a store holding `ann` only. -/
theorem emailsUnique_preserved_witness :
    emailsUnique annDb ∧ jsTrim "ann@x.com" = ann.email ∧
      emailsUnique (handle sampleEnv 3
        (.updateUser "64b7f0c2a1d3e4f5a6b7c8d9"
          ⟨some "Ann B", some "eve@x.com", none, none, none⟩) annDb).db ∧
      responseStatus (registerUser sampleEnv 3 "64b7f0c2a1d3e4f5a6b7c8da"
        ⟨some "Eve", some "ann@x.com", some "secret9"⟩ annDb) = 400 ∧
      (registerUser sampleEnv 3 "64b7f0c2a1d3e4f5a6b7c8da"
        ⟨some "Eve", some "ann@x.com", some "secret9"⟩ annDb).db = annDb ∧
      (registerUser sampleEnv 3 "64b7f0c2a1d3e4f5a6b7c8da"
        ⟨some "Eve", some "ann@x.com", some "secret9"⟩ annDb).thrown
        = some (.error "Email already registered") ∧
      (updateUser sampleEnv 3 "64b7f0c2a1d3e4f5a6b7c8d9"
        ⟨some "Ann B", some "eve@x.com", none, none, none⟩
        annDb).db.users.map (fun u => u.email) = annDb.users.map (fun u => u.email) :=
  have h : emailsUnique annDb := by
    simp [emailsUnique, annDb]
  ⟨h, by decide,
    (emailsUnique_preserved sampleEnv annDb h).1 3
      (.updateUser "64b7f0c2a1d3e4f5a6b7c8d9"
        ⟨some "Ann B", some "eve@x.com", none, none, none⟩),
    ((emailsUnique_preserved sampleEnv annDb h).2.1 3 "64b7f0c2a1d3e4f5a6b7c8da"
      ⟨some "Eve", some "ann@x.com", some "secret9"⟩ ann "ann@x.com" (by decide) rfl
      (by decide)).1,
    ((emailsUnique_preserved sampleEnv annDb h).2.1 3 "64b7f0c2a1d3e4f5a6b7c8da"
      ⟨some "Eve", some "ann@x.com", some "secret9"⟩ ann "ann@x.com" (by decide) rfl
      (by decide)).2.1,
    ((emailsUnique_preserved sampleEnv annDb h).2.1 3 "64b7f0c2a1d3e4f5a6b7c8da"
      ⟨some "Eve", some "ann@x.com", some "secret9"⟩ ann "ann@x.com" (by decide) rfl
      (by decide)).2.2 (by decide) (by decide) (by decide) (by decide),
    (emailsUnique_preserved sampleEnv annDb h).2.2 3 "64b7f0c2a1d3e4f5a6b7c8d9"
      ⟨some "Ann B", some "eve@x.com", none, none, none⟩⟩

/-! ## Forgot password, then reset -/

/-- C3 fails on the code. From a store holding `ann`, `forgotPassword` saves the
token of the secret it built and then throws on the unbound `precess`; the reset
with that exact secret one millisecond later and a new password of seven
characters passes the token lookup and throws on the unbound `bcrypt` of the
pre-save hook: no body is sent and the stored user is what it was. -/
theorem forgot_then_reset_throws :
    (forgotPassword sampleEnv 0 0 sampleRand (some "ann@x.com") annDb).db.tokens
        = [{ userId := "64b7f0c2a1d3e4f5a6b7c8d9",
             token := sampleEnv.sha256 (resetSecret sampleRand ann), createdAt := 0,
             expiresAt := 1800000 }] ∧
      (forgotPassword sampleEnv 0 0 sampleRand (some "ann@x.com") annDb).thrown
        = some (.referenceError "precess") ∧
      (resetPassword sampleEnv 1 (resetSecret sampleRand ann) (some "secret2")
        (forgotPassword sampleEnv 0 0 sampleRand (some "ann@x.com") annDb).db).thrown
        = some (.referenceError "bcrypt") ∧
      (resetPassword sampleEnv 1 (resetSecret sampleRand ann) (some "secret2")
        (forgotPassword sampleEnv 0 0 sampleRand (some "ann@x.com") annDb).db).res.body = none ∧
      (resetPassword sampleEnv 1 (resetSecret sampleRand ann) (some "secret2")
        (forgotPassword sampleEnv 0 0 sampleRand (some "ann@x.com") annDb).db).db.users = [ann] ∧
      sampleEnv.bcryptCompare "secret2" ann.password = false := by
  decide

/-! ## Reuse of a reset secret -/

/-- C10 fails on the code: a first reset succeeds with status 200 (the password it
sends is the stored value, so the save writes nothing), and a second reset with
the same secret, later and still before expiry, with the password `abc` is
rejected by the validators: it does not succeed and sets no password. -/
theorem second_reset_rejected :
    (resetPassword sampleEnv 1 "s3cret" (some "bcrypt:secret1") annTokenDb).thrown = none ∧
      responseStatus (resetPassword sampleEnv 1 "s3cret" (some "bcrypt:secret1") annTokenDb)
        = 200 ∧
      (resetPassword sampleEnv 2 "s3cret" (some "abc")
        (resetPassword sampleEnv 1 "s3cret" (some "bcrypt:secret1") annTokenDb).db).thrown
        = some .validationError ∧
      (resetPassword sampleEnv 2 "s3cret" (some "abc")
        (resetPassword sampleEnv 1 "s3cret" (some "bcrypt:secret1") annTokenDb).db).db.users
        = [ann] := by
  decide

/-- A reset with the secret of a stored token that has not expired passes the
token lookup. -/
theorem resetPassword_live_token (env : Env) (db : Db) (secret : String) (tok : Token)
    (now : Nat) (p : Option String) (hmem : tok ∈ db.tokens)
    (hdig : tok.token = env.sha256 secret) (hlive : now < tok.expiresAt) :
    ¬ (resetPassword env now secret p db).thrown = some (.error "Invalid or Expired token") ∧
      ¬ responseStatus (resetPassword env now secret p db) = 404 := by
  have hsome : ∃ t, db.tokens.find?
      (fun t => t.token == env.sha256 secret && decide (now < t.expiresAt)) = some t := by
    cases hf : db.tokens.find?
        (fun t => t.token == env.sha256 secret && decide (now < t.expiresAt)) with
    | some t => exact ⟨t, rfl⟩
    | none =>
      have := List.find?_eq_none.mp hf tok hmem
      simp [hdig, hlive] at this
  obtain ⟨t, ht⟩ := hsome
  refine ⟨?_, ?_⟩
  · unfold resetPassword
    simp only [ht]
    split
    · simp
    · split
      · simp
      · split
        · rename_i e hsave
          rcases saveUser_error env now db.users _ _ e hsave with he | he <;> simp [he]
        · simp
  · unfold resetPassword
    simp only [ht]
    split
    · simp [responseStatus, errorHandler, finalHandler, freshRes]
    · split
      · simp [responseStatus, errorHandler, finalHandler, freshRes]
      · split <;> simp [responseStatus, errorHandler, finalHandler, freshRes]

/-- C10 as amended: `resetPassword` leaves the token collection unchanged, so for a
stored token with the digest of the secret and times t1 ≤ t2 both strictly before
its expiresAt, the reset at t1 and a second reset with the same secret at t2 both
pass the token lookup: neither ends with the error "Invalid or Expired token" nor
with status 404. -/
theorem resetPassword_token_reusable (env : Env) (db : Db) (secret : String) (tok : Token)
    (t1 t2 : Nat) (p1 p2 : Option String) (hmem : tok ∈ db.tokens)
    (hdig : tok.token = env.sha256 secret) (h12 : t1 ≤ t2) (hlive : t2 < tok.expiresAt) :
    (resetPassword env t1 secret p1 db).db.tokens = db.tokens ∧
      ¬ (resetPassword env t1 secret p1 db).thrown = some (.error "Invalid or Expired token") ∧
      ¬ (resetPassword env t2 secret p2 (resetPassword env t1 secret p1 db).db).thrown
          = some (.error "Invalid or Expired token") ∧
      ¬ responseStatus
          (resetPassword env t2 secret p2 (resetPassword env t1 secret p1 db).db) = 404 := by
  rw [resetPassword_db env t1 secret p1 db]
  exact ⟨rfl, (resetPassword_live_token env db secret tok t1 p1 hmem hdig (by omega)).1,
    resetPassword_live_token env db secret tok t2 p2 hmem hdig hlive⟩

/-- C10 as amended, at the token of `ann`, times 1 and 2. -/
theorem resetPassword_token_reusable_witness :
    (resetPassword sampleEnv 1 "s3cret" (some "bcrypt:secret1") annTokenDb).db.tokens
        = annTokenDb.tokens ∧
      ¬ (resetPassword sampleEnv 1 "s3cret" (some "bcrypt:secret1") annTokenDb).thrown
          = some (.error "Invalid or Expired token") ∧
      ¬ (resetPassword sampleEnv 2 "s3cret" (some "abc")
          (resetPassword sampleEnv 1 "s3cret" (some "bcrypt:secret1") annTokenDb).db).thrown
          = some (.error "Invalid or Expired token") ∧
      ¬ responseStatus (resetPassword sampleEnv 2 "s3cret" (some "abc")
          (resetPassword sampleEnv 1 "s3cret" (some "bcrypt:secret1") annTokenDb).db) = 404 :=
  resetPassword_token_reusable sampleEnv annTokenDb "s3cret"
    { userId := "64b7f0c2a1d3e4f5a6b7c8d9", token := "sha256:s3cret", createdAt := 0, expiresAt := 1000 } 1 2
    (some "bcrypt:secret1") (some "abc") (by decide) (by decide) (by decide) (by decide)

/-! ## Profile update -/

theorem orElse_ne_empty (a : Option String) (b : String) (hb : b ≠ "") : orElse a b ≠ "" := by
  unfold orElse
  split
  · split
    · rename_i s hs
      simpa using hs
    · exact hb
  · exact hb

theorem orElse_none (b : String) : orElse none b = b := rfl

theorem orElse_some (s b : String) (hs : s ≠ "") : orElse (some s) b = s := by
  simp [orElse, hs]

set_option maxRecDepth 100000 in
/-- C9 fails on the code: a bio of 251 characters supplied to `updateUser` is
rejected by the validator of the bio path: the save throws, no body is sent and
the stored bio stays what it was. -/
theorem updateUser_long_bio_rejected :
    findById annDb.users "64b7f0c2a1d3e4f5a6b7c8d9" = some ann ∧ longBio ≠ "" ∧
      (updateUser sampleEnv 5 "64b7f0c2a1d3e4f5a6b7c8d9" ⟨none, none, none, some longBio, none⟩ annDb).thrown
        = some .validationError ∧
      (updateUser sampleEnv 5 "64b7f0c2a1d3e4f5a6b7c8d9" ⟨none, none, none, some longBio, none⟩ annDb).res.body
        = none ∧
      (findById (updateUser sampleEnv 5 "64b7f0c2a1d3e4f5a6b7c8d9" ⟨none, none, none, some longBio, none⟩
        annDb).db.users "64b7f0c2a1d3e4f5a6b7c8d9").map (fun u => u.bio) = some "bio" := by
  decide

/-- C9 as amended: for an existing user whose stored record passes the validators
of the model and a request body whose bio, when supplied, has at most 250
characters, `updateUser` answers with status 200 and exactly the public fields of
the updated user, which is the user then stored under that id; its id, email and
password hash are those before the call whatever the body holds; each of name,
phone, bio, photo keeps its value when the body omits it and takes the supplied
value when that is a non-empty string. -/
theorem updateUser_profile (env : Env) (now : Nat) (db : Db) (id : String) (u : User)
    (body : UpdateBody) (hu : findById db.users id = some u)
    (hvalid : userValid env u = true)
    (hbio : ∀ s, body.bio = some s → jsLength s ≤ 250) :
    ∃ v : User,
      updateUser env now id body db =
        { res := { statusCode := 200, cookies := [], body := some (profileOf v none) },
          db := { users := replaceById db.users v, tokens := db.tokens }, thrown := none } ∧
      findById (updateUser env now id body db).db.users id = some v ∧
      v._id = u._id ∧ v.email = u.email ∧ v.password = u.password ∧
      (body.name = none → v.name = u.name) ∧
      (∀ s, body.name = some s → s ≠ "" → v.name = s) ∧
      (body.phone = none → v.phone = u.phone) ∧
      (∀ s, body.phone = some s → s ≠ "" → v.phone = s) ∧
      (body.bio = none → v.bio = u.bio) ∧
      (∀ s, body.bio = some s → s ≠ "" → v.bio = s) ∧
      (body.photo = none → v.photo = u.photo) ∧
      (∀ s, body.photo = some s → s ≠ "" → v.photo = s) := by
  simp only [userValid, Bool.and_eq_true, bne_iff_ne, ne_eq, decide_eq_true_eq] at hvalid
  obtain ⟨⟨⟨⟨⟨⟨hname, hemail⟩, hok⟩, hpw⟩, hlen⟩, hphoto⟩, hbiolen⟩ := hvalid
  have hdocbio : jsLength (orElse body.bio u.bio) ≤ 250 := by
    cases hb : body.bio with
    | none => simpa [orElse] using hbiolen
    | some s =>
      by_cases hs : s = ""
      · simpa [orElse, hs] using hbiolen
      · rw [orElse_some s u.bio hs]
        exact hbio s hb
  have hdocvalid : userValid env
      { u with
        email := u.email,
        name := orElse body.name u.name,
        phone := orElse body.phone u.phone,
        bio := orElse body.bio u.bio,
        photo := orElse body.photo u.photo } = true := by
    simp only [userValid, Bool.and_eq_true, bne_iff_ne, ne_eq, decide_eq_true_eq]
    exact ⟨⟨⟨⟨⟨⟨orElse_ne_empty _ _ hname, hemail⟩, hok⟩, hpw⟩, hlen⟩,
      orElse_ne_empty _ _ hphoto⟩, hdocbio⟩
  have hout : ∃ v : User,
      updateUser env now id body db =
        { res := { statusCode := 200, cookies := [], body := some (profileOf v none) },
          db := { users := replaceById db.users v, tokens := db.tokens }, thrown := none } ∧
      v._id = u._id ∧ v.email = u.email ∧ v.password = u.password ∧
      v.name = orElse body.name u.name ∧ v.phone = orElse body.phone u.phone ∧
      v.bio = orElse body.bio u.bio ∧ v.photo = orElse body.photo u.photo := by
    refine ⟨if ({ u with
        email := u.email,
        name := orElse body.name u.name,
        phone := orElse body.phone u.phone,
        bio := orElse body.bio u.bio,
        photo := orElse body.photo u.photo } : User) = u then
        { u with
          email := u.email,
          name := orElse body.name u.name,
          phone := orElse body.phone u.phone,
          bio := orElse body.bio u.bio,
          photo := orElse body.photo u.photo }
      else
        { u with
          email := u.email,
          name := orElse body.name u.name,
          phone := orElse body.phone u.phone,
          bio := orElse body.bio u.bio,
          photo := orElse body.photo u.photo,
          updatedAt := now }, ?_, ?_⟩
    · simp only [updateUser, hu, saveUser, hdocvalid, preSaveHook, bne_self_eq_false,
        Bool.not_true, Bool.not_false, Bool.false_eq_true, if_false, if_true, freshRes]
    · split <;> simp
  obtain ⟨v, hv, hid, hem, hpass, hn, hp, hb, hph⟩ := hout
  refine ⟨v, hv, ?_, hid, hem, hpass, ?_, ?_, ?_, ?_, ?_, ?_, ?_, ?_⟩
  · rw [hv]
    exact findById_replaceById db.users id u v hu hid
  · intro h; rw [hn, h, orElse_none]
  · intro s h hs; rw [hn, h, orElse_some s _ hs]
  · intro h; rw [hp, h, orElse_none]
  · intro s h hs; rw [hp, h, orElse_some s _ hs]
  · intro h; rw [hb, h, orElse_none]
  · intro s h hs; rw [hb, h, orElse_some s _ hs]
  · intro h; rw [hph, h, orElse_none]
  · intro s h hs; rw [hph, h, orElse_some s _ hs]

/-- C9 as amended, at `ann` and a body that supplies a name, an email and a bio. -/
theorem updateUser_profile_witness :
    findById annDb.users "64b7f0c2a1d3e4f5a6b7c8d9" = some ann ∧ userValid sampleEnv ann = true ∧
      ∃ v : User,
        findById (updateUser sampleEnv 5 "64b7f0c2a1d3e4f5a6b7c8d9"
          ⟨some "Ann B", some "eve@x.com", none, some "hello", none⟩ annDb).db.users "64b7f0c2a1d3e4f5a6b7c8d9"
          = some v ∧
        v.email = "ann@x.com" ∧ v.password = "bcrypt:secret1" ∧ v.name = "Ann B" ∧
        v.phone = "+91" ∧ v.bio = "hello" ∧ v.photo = "https://i.ibb.co/4pDNDk1/avatar.png" := by
  refine ⟨by decide, by decide, ?_⟩
  obtain ⟨v, _, h2, _, h4, h5, _, h7, h8, _, _, h11, h12, _⟩ :=
    updateUser_profile sampleEnv 5 annDb "64b7f0c2a1d3e4f5a6b7c8d9" ann
      ⟨some "Ann B", some "eve@x.com", none, some "hello", none⟩ (by decide) (by decide)
      (by intro s h; simp at h; subst h; decide)
  exact ⟨v, h2, h4, h5, h7 "Ann B" rfl (by decide), h8 rfl, h11 "hello" rfl (by decide), h12 rfl⟩

end Inventory
